import Mathlib

/-!
Shallow embedding of the ninjapivot backend (src/backend/api_server.py and
src/backend/ninjapivot/__init__.py) together with theorems settling the
spec claims about its job pipeline, progress stream, result retrieval and
analysis engine.

Conventions of the embedding:
* Python dict `jobs` (a global registry keyed by uuid strings) becomes an
  association list keyed by natural numbers (the uuid is opaque; only
  identity matters).
* Byte strings become `List ℕ`; Python `None` becomes `Option.none`.
* The humorous status strings are drawn randomly from a per-stage table
  (`STATUS_MESSAGES`); only the stage they are keyed by is behaviourally
  relevant, so `status_message` is embedded as the stage itself.
* Exceptions become `Except String` results or an explicit `Outcome`.
* External collaborators (pandas CSV parsing, latexmk rendering, sklearn
  KMeans label assignment, numpy random draws) are injected as explicit
  parameters, since their outputs cross the process boundary.
-/

namespace NinjaPivot

/-- Pipeline stages keying the STATUS_MESSAGES table in api_server.py
(lines 49-88): accepted, validating, analyzing, generating, finalizing,
complete. The random choice among humorous strings of one stage is a
presentation detail; the stage is what the embedding records. -/
inductive Stage where
  | accepted
  | validating
  | analyzing
  | generating
  | finalizing
  | complete
deriving DecidableEq, Repr

/-- Position of a stage in the pipeline order, used to express that the
state sequence never moves backward. -/
def Stage.idx : Stage → ℕ
  | .accepted => 0
  | .validating => 1
  | .analyzing => 2
  | .generating => 3
  | .finalizing => 4
  | .complete => 5

/-- One entry of the in-memory job registry: the dict created at
api_server.py lines 237-242 with keys progress, status_message,
is_complete, pdf, plus the error key that only the (dead) exception
handler at line 200 would add. -/
structure Job where
  progress : ℕ
  status_message : Stage
  is_complete : Bool
  pdf : Option (List ℕ)
  error : Option String
deriving DecidableEq, Repr

/-- The global `jobs` dict (api_server.py line 46), keyed by job id. -/
abbrev Jobs := List (ℕ × Job)

/-- jobs.get(job_id): first binding for the id, if any. -/
def lookupJob (jobs : Jobs) (id : ℕ) : Option Job :=
  (jobs.find? (fun p => p.1 = id)).map Prod.snd

/-- The job dict as initialised at upload (api_server.py lines 237-242):
progress 0, an accepted-stage message, not complete, pdf None. -/
def initJob : Job :=
  { progress := 0, status_message := .accepted, is_complete := false,
    pdf := none, error := none }

/-- Server-side state touched by upload_csv: the job registry and the set
of working directories allocated under CACHE_DIR (one per job id). -/
structure ServerState where
  jobs : Jobs
  dirs : List ℕ
deriving DecidableEq, Repr

/-- A submitted multipart file: its filename and its raw content. -/
structure RawUpload where
  filename : String
  content : String
deriving DecidableEq, Repr

/-- Python's str.endswith: the last `suf.length` characters equal `suf`.
Stated over the character lists of the strings. -/
def pyEndsWith (s suf : String) : Bool :=
  s.data.reverse.take suf.data.length == suf.data.reverse

/-- Modelled from the spec: the spec's notion of a payload in a
"recognizable tabular encoding" ("a byte stream of tabular data in a
common text delimited format; accepted only if its encoding/structure is
recognizable").  The repository itself contains no submission-time content
check (pandas parses the file only later, inside the pipeline), so this
predicate is taken from the spec's words: at least one non-empty line, a
comma-delimited header with at least two fields, and every line carrying
the same number of fields. -/
def recognizableTabular (content : String) : Bool :=
  match (content.data.splitOn '\n').filter (fun l => l ≠ []) with
  | [] => false
  | l :: ls =>
    if 2 ≤ (l.splitOn ',').length then
      ls.all (fun x => (x.splitOn ',').length == (l.splitOn ',').length)
    else
      false

/-- upload_csv (api_server.py lines 227-254): rejects the upload with an
HTTP 400 when the filename does not end in ".csv" — before any job id is
minted, any registry entry is added or any directory is created.
Otherwise it registers a fresh job in `Accepted` state, allocates the
working directory CACHE_DIR/job_id, saves the file there and schedules
process_job.  The payload content is never inspected here.  `freshId`
stands for the uuid4 generated at line 236. -/
def upload_csv (st : ServerState) (freshId : ℕ) (u : RawUpload) :
    Except String ℕ × ServerState :=
  if pyEndsWith u.filename ".csv" then
    (Except.ok freshId,
      { jobs := (freshId, initJob) :: st.jobs, dirs := freshId :: st.dirs })
  else
    (Except.error "Invalid file format. Please upload a CSV file.", st)

/-- Outcomes the pipeline coroutine can have: normal return, or an
exception escaping it (api_server.py line 199 re-raises). -/
inductive Outcome where
  | ok
  | raised (msg : String)
deriving DecidableEq, Repr

/-- The two fallible external steps of process_job, injected as data:
whether pd.read_csv succeeds on the saved file (line 121), and the bytes
of cache/job_id/main.pdf if that file exists after latexmk ran (lines
186-187; latexmk's exit code on line 175 is ignored, only the later open
of main.pdf can raise). -/
structure ExtWorld where
  csvParses : Bool
  renderOut : Option (List ℕ)
deriving DecidableEq, Repr

/-- process_job (api_server.py lines 97-202), as the sequence of job
states from the initial one through every registry write the coroutine
performs, paired with how the coroutine ends.  Writes in source order:
validating/20 (lines 117-118), then pd.read_csv which may raise (121),
analyzing/40 (128-129), the LaTeX source build (pure string work,
134-165), generating/60 (168-169), latexmk (175, cannot raise),
finalizing/95 (181-182), the read of main.pdf into job["pdf"] which
raises when the file is absent (186-187), and finally
complete/100/is_complete=True (191-193).  The except block at lines
198-202 starts with `raise e`, so every exception escapes and the
recording lines 200-202 never run. -/
def process_job (w : ExtWorld) (j0 : Job) : List Job × Outcome :=
  let j1 := { j0 with status_message := Stage.validating, progress := 20 }
  if ¬ w.csvParses then
    ([j0, j1], Outcome.raised "read_csv failed")
  else
    let j2 := { j1 with status_message := Stage.analyzing, progress := 40 }
    let j3 := { j2 with status_message := Stage.generating, progress := 60 }
    let j4 := { j3 with status_message := Stage.finalizing, progress := 95 }
    match w.renderOut with
    | none => ([j0, j1, j2, j3, j4], Outcome.raised "main.pdf not found")
    | some bs =>
      let j5 := { j4 with pdf := some bs }
      let j6 := { j5 with status_message := Stage.complete, progress := 100,
                          is_complete := true }
      ([j0, j1, j2, j3, j4, j5, j6], Outcome.ok)

/-- The job state after the pipeline stopped (last element of the write
trace). -/
def finalJob (w : ExtWorld) (j0 : Job) : Job :=
  ((process_job w j0).1).getLastD j0

/-- Job state after the validating write (api_server.py lines 117-118). -/
def stepValidating : Job :=
  { initJob with status_message := Stage.validating, progress := 20 }

/-- Job state after the analyzing write (lines 128-129). -/
def stepAnalyzing : Job :=
  { stepValidating with status_message := Stage.analyzing, progress := 40 }

/-- Job state after the generating write (lines 168-169). -/
def stepGenerating : Job :=
  { stepAnalyzing with status_message := Stage.generating, progress := 60 }

/-- Job state after the finalizing write (lines 181-182). -/
def stepFinalizing : Job :=
  { stepGenerating with status_message := Stage.finalizing, progress := 95 }

/-- Job state after job["pdf"] is assigned (lines 186-187): the rendered
bytes are in the record, the completion flag is not yet set. -/
def pdfReadState (w : ExtWorld) : Job :=
  { stepFinalizing with pdf := some (w.renderOut.getD []) }

/-- One emission slot of the SSE snapshot dict built by job_progress
(api_server.py lines 211-217). -/
structure Snapshot where
  timestamp : ℕ
  job_id : ℕ
  progress : ℕ
  status_message : Stage
  is_complete : Bool
deriving DecidableEq, Repr

/-- job_progress (api_server.py lines 206-220): the generator's behaviour
at tick t (one loop iteration per second).  `jobsAt t` is the registry
content when iteration t runs.  jobs.get(job_id) returning nothing makes
the loop break — the stream ends, with no error; otherwise a snapshot of
the job is yielded and the loop continues.  Nothing in the loop inspects
is_complete to stop. -/
def job_progress (jobsAt : ℕ → Jobs) (id : ℕ) (t : ℕ) : Option Snapshot :=
  match lookupJob (jobsAt t) id with
  | none => none
  | some job =>
    some { timestamp := t, job_id := id, progress := job.progress,
           status_message := job.status_message,
           is_complete := job.is_complete }

/-- Responses of the result endpoint: HTTP 404, HTTP 500, or the PDF
bytes. -/
inductive ResultResp where
  | notFound
  | serverError
  | ok (bytes : List ℕ)
deriving DecidableEq, Repr

/-- get_result (api_server.py lines 259-280): 404 when the id is unknown
or the job is not complete; 500 when the job is complete but job["pdf"]
is falsy (None or empty bytes, Python truthiness of `not job.get("pdf")`);
otherwise the stored bytes.  The handler only reads the registry (the
mutation at line 278 is commented out), so the registry is returned
unchanged. -/
def get_result (jobs : Jobs) (id : ℕ) : ResultResp × Jobs :=
  match lookupJob jobs id with
  | none => (ResultResp.notFound, jobs)
  | some job =>
    if job.is_complete then
      match job.pdf with
      | none => (ResultResp.serverError, jobs)
      | some bs =>
        if bs = [] then (ResultResp.serverError, jobs)
        else (ResultResp.ok bs, jobs)
    else
      (ResultResp.notFound, jobs)

/-- A registry entry for a job the pipeline completed with one byte of
PDF output; used as concrete input by several witnesses. -/
def doneJob : Job :=
  { progress := 100, status_message := Stage.complete, is_complete := true,
    pdf := some [1], error := none }

/-- A DataFrame column as typed by pandas: either numeric, or an object
column that get_correlation_matrix and friends re-encode with
astype('category').cat.codes. -/
inductive Col where
  | num (xs : List ℚ)
  | cat (xs : List String)
deriving DecidableEq, Repr

/-- The categorical re-encoding used by all three analyses
(ninjapivot/__init__.py lines 38-40, 67-69, 142-144):
astype('category').cat.codes maps each value to its index among the
sorted distinct values of the column; numeric columns pass through. -/
def encodeCol : Col → List ℚ
  | .num xs => xs
  | .cat xs =>
    let cats := xs.dedup.mergeSort (fun a b => decide (a ≤ b))
    xs.map (fun v => ((cats.indexOf v : ℕ) : ℚ))

/-- Arithmetic mean, as np.mean / the mean inside scipy's pearsonr. -/
def mean (xs : List ℚ) : ℚ := xs.sum / (xs.length : ℚ)

/-- Sum of products of deviations from the mean: the quantity
sum((x - mean x) * (y - mean y)) from which pearsonr builds both its
numerator (x ≠ y) and the two variance factors of its denominator. -/
def covSum (xs ys : List ℚ) : ℚ :=
  (List.zipWith (fun a b => (a - mean xs) * (b - mean ys)) xs ys).sum

/-- Exact representation of a Pearson correlation coefficient.  The real
value of the coefficient is sign * Real.sqrt rsq, where rsq is the
squared coefficient covSum(x,y)^2 / (covSum(x,x) * covSum(y,y)) and sign
is the sign of covSum(x,y); the pair determines the real number exactly
while keeping the embedding computable over ℚ (the coefficient itself is
irrational in general).  The value 1.0 is represented as sign 1, rsq 1. -/
structure Corr where
  sign : Int
  rsq : ℚ
deriving DecidableEq, Repr

/-- scipy.stats.pearsonr (ninjapivot/__init__.py line 48): raises for
inputs of length below two or of different lengths, returns NaN when
either input is constant (zero variance, ConstantInputWarning) — both
embedded as none — and otherwise the coefficient
covSum(x,y) / sqrt(covSum(x,x) * covSum(y,y)), in the exact
representation documented at `Corr`. -/
def pearson (xs ys : List ℚ) : Option Corr :=
  if xs.length < 2 ∨ ys.length ≠ xs.length then none
  else if covSum xs xs = 0 ∨ covSum ys ys = 0 then none
  else
    some { sign := if 0 < covSum xs ys then 1
                   else if covSum xs ys < 0 then -1 else 0,
           rsq := covSum xs ys ^ 2 / (covSum xs xs * covSum ys ys) }

/-- get_correlation_matrix (ninjapivot/__init__.py lines 32-52): encode
every column, then for each pair (i, j) with i ≤ j compute pearsonr once
and write it to both cells (i, j) and (j, i).  Hence the cell (i, j) holds
pearson of the columns at min/max of the two indices.  Cells outside the
column range never exist in the DataFrame; the embedding maps them to the
pearson of empty columns, which is none. -/
def get_correlation_matrix (cols : List Col) (i j : ℕ) : Option Corr :=
  let e := cols.map encodeCol
  if i ≤ j then pearson (e.getD i []) (e.getD j [])
  else pearson (e.getD j []) (e.getD i [])

/-- One bootstrap resample (ninjapivot/__init__.py line 101):
np.random.choice(len(y), size=len(y), replace=True), i.e. a list of
row indices drawn with replacement — its length is the dataset's row
count. -/
structure Resample (n : ℕ) where
  idx : List (Fin n)
deriving DecidableEq, Repr

/-- The B resamples the bootstrap loop draws (lines 100-109), one per
iteration; `draw b i` is the i-th index numpy returns on iteration b,
injected since the randomness lives outside the repository. -/
def bootstrap_resamples (n B : ℕ) (draw : ℕ → Fin n → Fin n) :
    List (Resample n) :=
  (List.range B).map (fun b => { idx := List.ofFn (fun i => draw b i) })

/-- The per-target plotting section of get_regression_results
(ninjapivot/__init__.py lines 93-109): on an empty dataset the reference
line plt.plot([y.min(), y.max()], ...) at line 97 raises numpy's
zero-size reduction error before the bootstrap loop runs; otherwise the
loop body runs once per b in range(B), drawing one resample, refitting,
and plotting exactly one gray line per iteration.  The result is the
number of auxiliary (bootstrap) lines drawn on the target's plot. -/
def regression_plot_lines (n B : ℕ) (draw : ℕ → Fin n → Fin n) :
    Except String ℕ :=
  if n = 0 then
    Except.error "zero-size array to reduction operation minimum"
  else
    Except.ok (bootstrap_resamples n B draw).length

/-- Size of cluster i: how many of the n rows the fitted labels assign
to it (df_numeric['Cluster'].value_counts() at line 152 restricted to
one index). -/
def clusterCounts (k n : ℕ) (labels : Fin n → Fin k) (i : ℕ) : ℕ :=
  (Finset.univ.filter (fun j : Fin n => (labels j : ℕ) = i)).card

/-- The Count column of the clustering summary table
(ninjapivot/__init__.py lines 158-161): cluster_counts[i] for i in
range(m).  pandas raises KeyError when index i is absent from
value_counts, i.e. when cluster i is empty. -/
def countsList (k n : ℕ) (labels : Fin n → Fin k) : ℕ → Except String (List ℕ)
  | 0 => Except.ok []
  | m + 1 =>
    match countsList k n labels m with
    | Except.error e => Except.error e
    | Except.ok acc =>
      if clusterCounts k n labels m = 0 then Except.error "KeyError"
      else Except.ok (acc ++ [clusterCounts k n labels m])

/-- get_clustering_analysis (ninjapivot/__init__.py lines 129-163).
sklearn's KMeans raises ValueError when n_clusters is below one and when
n_samples < n_clusters, before producing any labels; on success it yields
one label per row (injected as `labels`, since the fit happens inside
sklearn) and exactly k cluster centers (cluster_centers_ has n_clusters
rows, one per cluster — centers_df at lines 154-155 therefore has k rows
by construction, returned here as the second component).  The summary
table then looks up each cluster's count, raising KeyError on an empty
cluster. -/
def get_clustering_analysis (k n : ℕ) (labels : Fin n → Fin k) :
    Except String (List ℕ × ℕ) :=
  if k = 0 then Except.error "n_clusters should be an integer greater than zero"
  else if n < k then Except.error "n_samples should be greater than or equal to n_clusters"
  else
    match countsList k n labels k with
    | Except.error e => Except.error e
    | Except.ok cs => Except.ok (cs, k)

/-- Concrete labels for the clustering counterexample: the single row of
a one-row dataset, assigned (by any fit) to some of three clusters. -/
def oneRowLabels : Fin 1 → Fin 3 := fun _ => 0

/-- Concrete labels for the clustering witness: two rows in two clusters,
row j in cluster j. -/
def idLabels : Fin 2 → Fin 2 := fun j => j

/-- Concrete draw for the bootstrap witness: iteration b picks row i
itself at position i. -/
def idDraw : ℕ → Fin 2 → Fin 2 := fun _ i => i

/-- Concrete draw over the empty dataset, for the bootstrap
counterexample. -/
def emptyDraw : ℕ → Fin 0 → Fin 0 := fun _ i => i

/-- Helper: get_result never mutates the registry — the handler at
api_server.py lines 259-280 only reads it. -/
theorem get_result_snd (jobs : Jobs) (id : ℕ) : (get_result jobs id).2 = jobs := by
  unfold get_result
  split
  · rfl
  · split
    · split
      · rfl
      · split <;> rfl
    · rfl

/-- C1: a pipeline-stage exception is NOT caught: process_job's except
block re-raises first (api_server.py line 199), so the recording lines
200-202 are dead.  At the failing input (a registered job whose saved
file pd.read_csv cannot parse) the coroutine ends by raising, and the
job is left non-terminal: is_complete false, no error recorded, status
still the validating stage, progress stuck at 20. -/
theorem c1_exception_escapes_pipeline :
    (process_job { csvParses := false, renderOut := none } initJob).2 =
      Outcome.raised "read_csv failed" ∧
    (finalJob { csvParses := false, renderOut := none } initJob).is_complete = false ∧
    (finalJob { csvParses := false, renderOut := none } initJob).error = none ∧
    (finalJob { csvParses := false, renderOut := none } initJob).status_message =
      Stage.validating ∧
    (finalJob { csvParses := false, renderOut := none } initJob).progress = 20 :=
  ⟨rfl, rfl, rfl, rfl, rfl⟩

/-- C2 counterexample: a payload that is not recognizable tabular data
("garbage": one line, no delimiter) but whose filename ends in ".csv" is
accepted — a job id is returned, a registry entry is added and a working
directory is allocated, contradicting the claim that such a submission
fails with a ValidationError and creates no job. -/
theorem c2_counterexample :
    recognizableTabular "garbage" = false ∧
    (upload_csv { jobs := [], dirs := [] } 0
      { filename := "data.csv", content := "garbage" }).1 = Except.ok 0 ∧
    (upload_csv { jobs := [], dirs := [] } 0
      { filename := "data.csv", content := "garbage" }).2.jobs = [(0, initJob)] ∧
    (upload_csv { jobs := [], dirs := [] } 0
      { filename := "data.csv", content := "garbage" }).2.dirs = [0] :=
  ⟨by decide, rfl, rfl, rfl⟩

/-- C2 amended: submission validates only the filename — a file whose
name does not end in ".csv" is rejected synchronously with the
ValidationError message and the server state is unchanged: no job id, no
registry entry, no working directory. -/
theorem c2_amended_validation (st : ServerState) (freshId : ℕ) (u : RawUpload)
    (h : pyEndsWith u.filename ".csv" = false) :
    (upload_csv st freshId u).1 =
      Except.error "Invalid file format. Please upload a CSV file." ∧
    (upload_csv st freshId u).2 = st := by
  simp [upload_csv, h]

/-- C2 amended, witness: a well-formed tabular payload named data.txt is
rejected with no state change. -/
theorem c2_amended_validation_witness :
    (upload_csv { jobs := [], dirs := [] } 1
      { filename := "data.txt", content := "a,b" }).1 =
      Except.error "Invalid file format. Please upload a CSV file." ∧
    (upload_csv { jobs := [], dirs := [] } 1
      { filename := "data.txt", content := "a,b" }).2 =
      { jobs := [], dirs := [] } :=
  c2_amended_validation { jobs := [], dirs := [] } 1
    { filename := "data.txt", content := "a,b" } (by decide)

/-- C3 counterexample: for a registry holding a job in the terminal
success state, the progress stream emits the terminal snapshot at tick 0
and still emits at tick 1 — the generator loop never inspects
is_complete, so the stream does not end after the terminal snapshot. -/
theorem c3_counterexample :
    doneJob.is_complete = true ∧
    job_progress (fun _ => [(0, doneJob)]) 0 0 =
      some { timestamp := 0, job_id := 0, progress := 100,
             status_message := Stage.complete, is_complete := true } ∧
    job_progress (fun _ => [(0, doneJob)]) 0 1 =
      some { timestamp := 1, job_id := 0, progress := 100,
             status_message := Stage.complete, is_complete := true } :=
  ⟨rfl, rfl, rfl⟩

/-- C3 amended: at every tick the stream ends gracefully (yields nothing,
no error) when the job id is absent from the registry, and otherwise
emits a snapshot of the job's current progress, status and completion
flag; it keeps emitting as long as the job is registered, regardless of
terminal state. -/
theorem c3_amended_stream (jobsAt : ℕ → Jobs) (id t : ℕ) :
    (lookupJob (jobsAt t) id = none → job_progress jobsAt id t = none) ∧
    (∀ job, lookupJob (jobsAt t) id = some job →
      job_progress jobsAt id t =
        some { timestamp := t, job_id := id, progress := job.progress,
               status_message := job.status_message,
               is_complete := job.is_complete }) := by
  constructor
  · intro h
    simp [job_progress, h]
  · intro job h
    simp [job_progress, h]

/-- C3 amended, witness: subscribing to an unknown job id ends the
stream at once, without error. -/
theorem c3_amended_stream_witness :
    job_progress (fun _ => []) 5 0 = none :=
  (c3_amended_stream (fun _ => []) 5 0).1 rfl

/-- C5: over any run of the pipeline — including the two runs cut short
by an exception — the sequence of job states from upload through every
registry write has monotonically non-decreasing progress within 0-100,
and the stage sequence never moves backward (so no stage is revisited
after being left). -/
theorem c5_progress_monotone_state_forward (w : ExtWorld) :
    ((process_job w initJob).1.map Job.progress).Chain' (· ≤ ·) ∧
    ((process_job w initJob).1.map (fun j => j.status_message.idx)).Chain' (· ≤ ·) ∧
    ∀ j ∈ (process_job w initJob).1, j.progress ≤ 100 := by
  rcases w with ⟨c, r⟩
  rcases r with _ | bs <;> cases c <;>
    refine ⟨?_, ?_, ?_⟩ <;>
      norm_num [process_job, initJob, List.chain'_cons, Stage.idx,
        List.forall_mem_cons]

/-- C6: result retrieval returns the artifact bytes only for a job in
the terminal success state with non-empty stored bytes; it returns the
not-found signal when the id is unknown or the job is not complete
(failed pipelines leave is_complete false, so failed jobs fall here and
never yield an artifact), and the server-side failure signal when the
job is complete but the stored artifact is missing (None) or empty. -/
theorem c6_get_result_characterisation (jobs : Jobs) (id : ℕ) :
    (lookupJob jobs id = none → (get_result jobs id).1 = ResultResp.notFound) ∧
    (∀ job, lookupJob jobs id = some job → job.is_complete = false →
      (get_result jobs id).1 = ResultResp.notFound) ∧
    (∀ job, lookupJob jobs id = some job → job.is_complete = true →
      (job.pdf = none ∨ job.pdf = some []) →
      (get_result jobs id).1 = ResultResp.serverError) ∧
    (∀ job bs, lookupJob jobs id = some job → job.is_complete = true →
      job.pdf = some bs → bs ≠ [] →
      (get_result jobs id).1 = ResultResp.ok bs) ∧
    (∀ job bs, (get_result jobs id).1 = ResultResp.ok bs →
      lookupJob jobs id = some job →
      job.is_complete = true ∧ job.pdf = some bs ∧ bs ≠ []) := by
  refine ⟨?_, ?_, ?_, ?_, ?_⟩
  · intro h
    simp [get_result, h]
  · intro job h hc
    simp [get_result, h, hc]
  · intro job h hc hp
    rcases hp with hp | hp <;> simp [get_result, h, hc, hp]
  · intro job bs h hc hp hne
    simp [get_result, h, hc, hp, hne]
  · intro job bs hok h
    rw [get_result] at hok
    simp only [h] at hok
    by_cases hc : job.is_complete
    · rcases hpdf : job.pdf with _ | l
      · simp [hc, hpdf] at hok
      · by_cases hl : l = []
        · simp [hc, hpdf, hl] at hok
        · simp [hc, hpdf, hl] at hok
          exact ⟨hc, congrArg some hok, hok ▸ hl⟩
    · simp [hc] at hok

/-- C6 witness: a completed job with one stored byte yields exactly those
bytes. -/
theorem c6_get_result_witness :
    (get_result [(0, doneJob)] 0).1 = ResultResp.ok [1] :=
  (c6_get_result_characterisation [(0, doneJob)] 0).2.2.2.1 doneJob [1] rfl rfl rfl
    (by decide)

/-- C9: retrieving a completed job's result is idempotent and pure — the
registry is returned unchanged, a second retrieval sees the same
registry and returns byte-identical artifact bytes, and the job entry
itself is untouched. -/
theorem c9_result_retrieval_idempotent (jobs : Jobs) (id : ℕ) (job : Job)
    (bs : List ℕ) (h : lookupJob jobs id = some job)
    (hc : job.is_complete = true) (hp : job.pdf = some bs) (hne : bs ≠ []) :
    (get_result jobs id).2 = jobs ∧
    (get_result jobs id).1 = ResultResp.ok bs ∧
    (get_result ((get_result jobs id).2) id).1 = (get_result jobs id).1 ∧
    lookupJob ((get_result ((get_result jobs id).2) id).2) id = some job := by
  have hsnd := get_result_snd jobs id
  refine ⟨hsnd, ?_, ?_, ?_⟩
  · simp [get_result, h, hc, hp, hne]
  · rw [hsnd]
  · rw [hsnd, get_result_snd, h]

/-- C9 witness: both retrievals of the one-byte artifact agree and leave
the registry as it was. -/
theorem c9_result_retrieval_idempotent_witness :
    (get_result [(0, doneJob)] 0).2 = [(0, doneJob)] ∧
    (get_result [(0, doneJob)] 0).1 = ResultResp.ok [1] ∧
    (get_result ((get_result [(0, doneJob)] 0).2) 0).1 =
      (get_result [(0, doneJob)] 0).1 ∧
    lookupJob ((get_result ((get_result [(0, doneJob)] 0).2) 0).2) 0 =
      some doneJob :=
  c9_result_retrieval_idempotent [(0, doneJob)] 0 doneJob [1] rfl rfl rfl
    (by decide)

/-- C10 counterexample: when the external render step leaves an empty
main.pdf, the pipeline completes the job with empty stored bytes, and
result retrieval for that pipeline-completed job returns the server-side
failure signal — the claim's "non-empty" and "unreachable" parts fail. -/
theorem c10_counterexample :
    (finalJob { csvParses := true, renderOut := some [] } initJob).is_complete =
      true ∧
    (finalJob { csvParses := true, renderOut := some [] } initJob).pdf =
      some [] ∧
    (get_result
      [(0, finalJob { csvParses := true, renderOut := some [] } initJob)]
      0).1 = ResultResp.serverError :=
  ⟨rfl, rfl, rfl⟩

/-- C10 amended: whenever the pipeline leaves the completion flag true,
the rendered file existed, its bytes — possibly empty — are stored in
the job record, and the write trace shows the pdf assignment strictly
before the completing write (the second-to-last state has the bytes but
is_complete still false). -/
theorem c10_amended_pdf_before_flag (w : ExtWorld)
    (h : (finalJob w initJob).is_complete = true) :
    w.renderOut = some (w.renderOut.getD []) ∧
    (finalJob w initJob).pdf = some (w.renderOut.getD []) ∧
    (process_job w initJob).1 =
      [initJob, stepValidating, stepAnalyzing, stepGenerating, stepFinalizing,
       pdfReadState w, finalJob w initJob] ∧
    (pdfReadState w).is_complete = false := by
  rcases w with ⟨c, r⟩
  rcases r with _ | bs <;> cases c
  · exact Bool.noConfusion h
  · exact Bool.noConfusion h
  · exact Bool.noConfusion h
  · exact ⟨rfl, rfl, rfl, rfl⟩

/-- C10 amended, witness: a render producing one byte yields a completed
job holding exactly that byte. -/
theorem c10_amended_pdf_before_flag_witness :
    (finalJob { csvParses := true, renderOut := some [37] } initJob).pdf =
      some [37] :=
  (c10_amended_pdf_before_flag { csvParses := true, renderOut := some [37] }
    rfl).2.1

/-- Helper: zipping a list with itself pointwise is mapping the diagonal
of the binary function. -/
theorem zipWith_self_eq_map {α β : Type} (f : α → α → β) (l : List α) :
    List.zipWith f l l = l.map (fun a => f a a) := by
  induction l with
  | nil => rfl
  | cons a l ih => simp [ih]

/-- Helper: the deviation-product sum of a column with itself is a sum of
squares, hence non-negative. -/
theorem covSum_self_nonneg (xs : List ℚ) : 0 ≤ covSum xs xs := by
  unfold covSum
  rw [zipWith_self_eq_map]
  apply List.sum_nonneg
  intro x hx
  simp only [List.mem_map] at hx
  obtain ⟨a, _, rfl⟩ := hx
  exact mul_self_nonneg _

/-- Helper: pearsonr of a non-constant column of length at least two with
itself is exactly the coefficient 1 (sign 1, squared value 1). -/
theorem pearson_self (xs : List ℚ) (hlen : 2 ≤ xs.length)
    (hv : covSum xs xs ≠ 0) :
    pearson xs xs = some { sign := 1, rsq := 1 } := by
  have hpos : 0 < covSum xs xs :=
    lt_of_le_of_ne (covSum_self_nonneg xs) (Ne.symm hv)
  unfold pearson
  rw [if_neg (by push_neg; exact ⟨by omega, rfl⟩)]
  rw [if_neg (by push_neg; exact ⟨hv, hv⟩)]
  simp only [Option.some.injEq, Corr.mk.injEq]
  constructor
  · rw [if_pos hpos]
  · rw [sq]
    exact div_self (mul_ne_zero hv hv)

/-- C4 counterexample: the one-column dataset whose column is constant
([1, 1]).  scipy's pearsonr of the column with itself is NaN
(ConstantInputWarning), so the diagonal entry of the correlation matrix
is NaN, not 1.0. -/
theorem c4_counterexample :
    get_correlation_matrix [Col.num [1, 1]] 0 0 = none ∧
    get_correlation_matrix [Col.num [1, 1]] 0 0 ≠
      some { sign := 1, rsq := 1 } := by
  have h : get_correlation_matrix [Col.num [1, 1]] 0 0 = none := by
    norm_num [get_correlation_matrix, pearson, covSum, mean, encodeCol]
  refine ⟨h, ?_⟩
  rw [h]
  exact fun hc => Option.noConfusion hc

/-- C4 amended: for every dataset the correlation matrix is symmetric
(entry (i, j) equals entry (j, i) for all index pairs), and a diagonal
entry equals exactly 1.0 provided its column has at least two rows and
is not constant after encoding; a constant column yields a NaN diagonal
entry instead, and scipy raises on columns shorter than two. -/
theorem c4_amended_corr_matrix (cols : List Col) :
    (∀ i j, get_correlation_matrix cols i j = get_correlation_matrix cols j i) ∧
    (∀ i col, cols[i]? = some col → 2 ≤ (encodeCol col).length →
      covSum (encodeCol col) (encodeCol col) ≠ 0 →
      get_correlation_matrix cols i i = some { sign := 1, rsq := 1 }) := by
  constructor
  · intro i j
    unfold get_correlation_matrix
    by_cases hij : i ≤ j
    · by_cases hji : j ≤ i
      · have heq : i = j := le_antisymm hij hji
        subst heq
        simp
      · simp [hij, hji]
    · have hji : j ≤ i := le_of_not_le hij
      simp [hij, hji]
  · intro i col hcol hlen hv
    unfold get_correlation_matrix
    rw [if_pos (le_refl i)]
    have he : (cols.map encodeCol).getD i [] = encodeCol col := by
      simp [List.getD, List.getElem?_map, hcol]
    rw [he]
    exact pearson_self _ hlen hv

/-- C4 amended, witness: the one-column dataset [1, 2] has diagonal entry
exactly 1.0. -/
theorem c4_amended_corr_matrix_witness :
    get_correlation_matrix [Col.num [1, 2]] 0 0 = some { sign := 1, rsq := 1 } :=
  (c4_amended_corr_matrix [Col.num [1, 2]]).2 0 (Col.num [1, 2]) rfl
    (by decide) (by norm_num [covSum, mean, encodeCol])

/-- Helper: when every cluster below m is non-empty, the Count column for
clusters 0..m-1 is produced without KeyError and lists the cluster
sizes in order. -/
theorem countsList_ok (k n : ℕ) (labels : Fin n → Fin k) (m : ℕ)
    (h : ∀ i, i < m → clusterCounts k n labels i ≠ 0) :
    countsList k n labels m =
      Except.ok ((List.range m).map (clusterCounts k n labels)) := by
  induction m with
  | zero => rfl
  | succ m ih =>
    rw [countsList, ih (fun i hi => h i (Nat.lt_succ_of_lt hi))]
    simp [h m (Nat.lt_succ_self m), List.range_succ]

/-- Helper: summing a function over List.range agrees with the Finset
sum over the same range. -/
theorem sum_range_map (g : ℕ → ℕ) (k : ℕ) :
    ((List.range k).map g).sum = ∑ b ∈ Finset.range k, g b := by
  induction k with
  | zero => rfl
  | succ k ih =>
    rw [List.range_succ, Finset.sum_range_succ, ← ih]
    simp

/-- Helper: each of the n rows carries exactly one cluster label, so the
per-cluster sizes over all k clusters sum to n. -/
theorem counts_sum (k n : ℕ) (labels : Fin n → Fin k) :
    ((List.range k).map (clusterCounts k n labels)).sum = n := by
  have hcard : (Finset.univ : Finset (Fin n)).card =
      ∑ b ∈ Finset.range k, ((Finset.univ : Finset (Fin n)).filter
        (fun j => ((labels j : ℕ) = b))).card :=
    Finset.card_eq_sum_card_fiberwise
      (fun j _ => Finset.mem_range.mpr (labels j).isLt)
  rw [sum_range_map]
  unfold clusterCounts
  rw [← hcard]
  simp

/-- C7 counterexample: a non-empty dataset with a single row and the
default k = 3: sklearn's KMeans raises ValueError (n_samples below
n_clusters) before any label is produced, so the clustering analysis
yields no counts at all. -/
theorem c7_counterexample :
    get_clustering_analysis 3 1 oneRowLabels =
      Except.error "n_samples should be greater than or equal to n_clusters" :=
  rfl

/-- C7 amended: for every k at least 1 and every dataset with at least k
rows whose fitted labels leave no cluster empty, the clustering analysis
succeeds and its Count column has one entry per cluster (k of them, and
k centers) summing exactly to the dataset's row count; a non-empty
dataset with fewer than k rows instead makes KMeans raise, and an empty
cluster makes the summary lookup raise KeyError. -/
theorem c7_amended_cluster_counts (k n : ℕ) (labels : Fin n → Fin k)
    (hk : 1 ≤ k) (hkn : k ≤ n)
    (hne : ∀ i, i < k → clusterCounts k n labels i ≠ 0) :
    get_clustering_analysis k n labels =
      Except.ok ((List.range k).map (clusterCounts k n labels), k) ∧
    ((List.range k).map (clusterCounts k n labels)).length = k ∧
    ((List.range k).map (clusterCounts k n labels)).sum = n := by
  refine ⟨?_, by simp, counts_sum k n labels⟩
  have hk0 : ¬ k = 0 := by omega
  have hnk : ¬ n < k := by omega
  simp [get_clustering_analysis, hk0, hnk, countsList_ok k n labels k hne]

/-- C7 amended, witness: two rows in two clusters, one row per cluster —
counts [1, 1], two centers, total 2. -/
theorem c7_amended_cluster_counts_witness :
    get_clustering_analysis 2 2 idLabels =
      Except.ok ((List.range 2).map (clusterCounts 2 2 idLabels), 2) ∧
    ((List.range 2).map (clusterCounts 2 2 idLabels)).length = 2 ∧
    ((List.range 2).map (clusterCounts 2 2 idLabels)).sum = 2 :=
  c7_amended_cluster_counts 2 2 idLabels (by decide) (by decide) (by decide)

/-- C8 counterexample: the empty dataset (zero rows).  The plotting step
raises numpy's zero-size reduction error at the reference line, before
the bootstrap loop runs, so no resample is drawn and no auxiliary line
is produced — not the B = 100 the claim promises. -/
theorem c8_counterexample :
    regression_plot_lines 0 100 emptyDraw =
      Except.error "zero-size array to reduction operation minimum" ∧
    regression_plot_lines 0 100 emptyDraw ≠ Except.ok 100 := by
  have h : regression_plot_lines 0 100 emptyDraw =
      Except.error "zero-size array to reduction operation minimum" := rfl
  refine ⟨h, ?_⟩
  rw [h]
  exact fun hc => Except.noConfusion hc

/-- C8 amended: for every non-empty dataset and every target column, the
bootstrap loop draws exactly B resamples, each a with-replacement index
list of the dataset's row count, and draws exactly B auxiliary fit lines
on the target's plot; on an empty dataset the plotting step raises
before any resample is drawn. -/
theorem c8_amended_bootstrap_counts (n B : ℕ) (draw : ℕ → Fin n → Fin n)
    (h : n ≠ 0) :
    regression_plot_lines n B draw =
      Except.ok (bootstrap_resamples n B draw).length ∧
    (bootstrap_resamples n B draw).length = B ∧
    ∀ r ∈ bootstrap_resamples n B draw, r.idx.length = n := by
  refine ⟨by simp [regression_plot_lines, h], by simp [bootstrap_resamples], ?_⟩
  intro r hr
  simp only [bootstrap_resamples, List.mem_map] at hr
  obtain ⟨b, _, rfl⟩ := hr
  simp

/-- C8 amended, witness: two rows, three bootstrap iterations — exactly
three auxiliary lines. -/
theorem c8_amended_bootstrap_counts_witness :
    regression_plot_lines 2 3 idDraw =
      Except.ok (bootstrap_resamples 2 3 idDraw).length ∧
    (bootstrap_resamples 2 3 idDraw).length = 3 :=
  ⟨(c8_amended_bootstrap_counts 2 3 idDraw (by decide)).1,
   (c8_amended_bootstrap_counts 2 3 idDraw (by decide)).2.1⟩

end NinjaPivot
